import Mathlib

/-!
Shallow embedding of the client-side orchestration layer of the
alt-sendme peer-to-peer file-transfer application: the sender hook
(`useSender.ts`), the receiver hook, and the analytics utility.

JavaScript numbers that originate from `parseInt` are modelled as
`Option Int`, with `none` standing for `NaN`.  Derived fractional
values (speed, percentage) are modelled as `Option ℚ`, with `none`
again standing for `NaN`.  JavaScript truthiness on numbers (`0` and
`NaN` are falsy) and on strings (`""` is falsy) is modelled explicitly
at each use site.
-/

namespace AltSendme

/-- Split a character list at every occurrence of `sep`, keeping empty
pieces: the model of JavaScript `String.split` with a one-character
separator. -/
def splitCharList (sep : Char) : List Char → List (List Char)
  | [] => [[]]
  | c :: cs =>
      let r := splitCharList sep cs
      if c = sep then [] :: r
      else
        match r with
        | h :: t => (c :: h) :: t
        | [] => [[c]]

/-- JavaScript `s.split(sep)` for a one-character separator. -/
def splitChar (sep : Char) (s : String) : List String :=
  (splitCharList sep s.data).map (fun l => String.mk l)

/-- JavaScript `s.trim()`: strip whitespace from both ends. -/
def trimJS (s : String) : String :=
  String.mk
    (((s.data.dropWhile Char.isWhitespace).reverse.dropWhile
      Char.isWhitespace).reverse)

/-- JavaScript `parseInt(s, 10)`: skip leading whitespace, read an
optional sign, then the longest prefix of decimal digits; `none`
models the `NaN` result when no digit is found. -/
def parseIntJS (s : String) : Option Int :=
  let cs := s.data.dropWhile Char.isWhitespace
  let signAndRest : Int × List Char :=
    match cs with
    | '-' :: r => (-1, r)
    | '+' :: r => (1, r)
    | r => (1, r)
  let ds := signAndRest.2.takeWhile Char.isDigit
  if ds.isEmpty then none
  else some (signAndRest.1 *
    (ds.foldl (fun a c => a * 10 + (c.toNat - '0'.toNat)) 0 : Nat))

/-- JavaScript `x || d` on a number `x` that may be `NaN` (`none`):
`0` and `NaN` are falsy. -/
def jsOrInt (x : Option Int) (d : Int) : Int :=
  match x with
  | some v => if v = 0 then d else v
  | none => d

/-- JavaScript `cond ? endTime - start : 0` where `cond` is the
truthiness of the nullable start time (`null` and `0` are falsy). -/
def durationFrom (start : Option Int) (endTime : Int) : Int :=
  match start with
  | some t => if t = 0 then 0 else endTime - t
  | none => 0

/-- JavaScript `path.split('/').pop() || d`: last segment of the
split, falling back to `d` when that segment is the empty string. -/
def jsPopOr (path : String) (d : String) : String :=
  match (splitChar '/' path).getLast? with
  | some seg => if seg = "" then d else seg
  | none => d

/-- AlertDialogState: single-slot alert, last write wins. -/
structure AlertDialogState where
  isOpen : Bool
  title : String
  description : String
  type : String
deriving DecidableEq

/-- The initial (closed) alert dialog state. -/
def initialAlert : AlertDialogState :=
  { isOpen := false, title := "", description := "", type := "info" }

/-- `showAlert(title, description, type)`: replaces the alert slot. -/
def showAlert (title description ty : String) : AlertDialogState :=
  { isOpen := true, title := title, description := description, type := ty }

/-- TransferProgress as stored by the progress handlers.  Fields come
from `parseInt`, hence may be `NaN` (`none`); `speedBps` and
`percentage` are floating-point derived values. -/
structure TransferProgress where
  bytesTransferred : Option Int
  totalBytes : Option Int
  speedBps : Option ℚ
  percentage : Option ℚ
deriving DecidableEq

/-- ImportProgress `{processed, total, percentage}`. -/
structure ImportProgress where
  processed : Option Int
  total : Option Int
  percentage : Option Int
deriving DecidableEq

/-- ExportProgress `{current, total, percentage}`. -/
structure ExportProgress where
  current : Option Int
  total : Option Int
  percentage : Option Int
deriving DecidableEq

/-- TransferMetadata, produced once at completion.  The sender's
metadata object has no `downloadPath` field (`none`); the receiver's
carries the configured save path. -/
structure TransferMetadata where
  fileName : String
  fileSize : Int
  duration : Int
  startTime : Int
  endTime : Int
  downloadPath : Option String
deriving DecidableEq

/-- `speedBps = speedInt / 1000.0`; `NaN` propagates. -/
def speedCalc (speedInt : Option Int) : Option ℚ :=
  speedInt.map (fun n => (n : ℚ) / 1000)

/-- `percentage = totalBytes > 0 ? (bytesTransferred / totalBytes) * 100 : 0`.
A `NaN` total compares false against `0`, giving `0`; a `NaN` byte
count with a positive total gives `NaN`. -/
def bytesProgress (bytes total : Option Int) : Option ℚ :=
  match total with
  | some t =>
      if 0 < t then
        match bytes with
        | some b => some ((b : ℚ) / (t : ℚ) * 100)
        | none => none
      else some 0
  | none => some 0

/-- Parse a `"bytesTransferred:totalBytes:rawSpeedUnits"` payload:
`none` when the payload does not split on `':'` into exactly 3 fields. -/
def parseProgressPayload (payload : String) : Option TransferProgress :=
  match splitChar ':' payload with
  | [p0, p1, p2] =>
      some
        { bytesTransferred := parseIntJS p0
          totalBytes := parseIntJS p1
          speedBps := speedCalc (parseIntJS p2)
          percentage := bytesProgress (parseIntJS p0) (parseIntJS p1) }
  | _ => none

/-- The shared transfer-progress / receive-progress handler body: a
well-formed payload replaces the snapshot, anything else leaves the
previous value unchanged. -/
def progressHandler (prev : Option TransferProgress) (payload : String) :
    Option TransferProgress :=
  match parseProgressPayload payload with
  | some p => some p
  | none => prev

/-- The import-progress handler body: a 3-field
`"processed:total:percentage"` payload replaces the counters, anything
else leaves the previous value unchanged. -/
def importProgressHandler (prev : Option ImportProgress) (payload : String) :
    Option ImportProgress :=
  match splitChar ':' payload with
  | [p0, p1, p2] =>
      some
        { processed := parseIntJS p0
          total := parseIntJS p1
          percentage := parseIntJS p2 }
  | _ => prev

/-- The export-progress handler body: a 3-field
`"current:total:percentage"` payload replaces the counters, anything
else leaves the previous value unchanged. -/
def exportProgressHandler (prev : Option ExportProgress) (payload : String) :
    Option ExportProgress :=
  match splitChar ':' payload with
  | [p0, p1, p2] =>
      some
        { current := parseIntJS p0
          total := parseIntJS p1
          percentage := parseIntJS p2 }
  | _ => prev

/-- The sender hook's state (`useSender`). -/
structure SenderState where
  isSharing : Bool
  isImporting : Bool
  isTransporting : Bool
  isCompleted : Bool
  ticket : Option String
  selectedPath : Option String
  isLoading : Bool
  copySuccess : Bool
  transferMetadata : Option TransferMetadata
  transferProgress : Option TransferProgress
  importProgress : Option ImportProgress
  transferStartTime : Option Int
  alertDialog : AlertDialogState
deriving DecidableEq

/-- The receiver hook's state (`useReceiver`).  `resumedFrom` is the
nullable `parseInt` result: outer `none` = `null`, inner `none` = `NaN`. -/
structure ReceiverState where
  ticket : String
  isReceiving : Bool
  isTransporting : Bool
  isExporting : Bool
  isCompleted : Bool
  savePath : String
  transferMetadata : Option TransferMetadata
  transferProgress : Option TransferProgress
  exportProgress : Option ExportProgress
  resumedFrom : Option (Option Int)
  transferStartTime : Option Int
  fileNames : List String
  alertDialog : AlertDialogState
deriving DecidableEq

/-- Lifecycle events consumed by the sender hook.  Events whose
handlers read the clock or invoke the engine carry those inputs. -/
inductive SenderEvent where
  | importStarted
  | importFileCount (payload : String)
  | importProgressEv (payload : String)
  | importCompleted
  | transferStarted (now : Int)
  | transferProgressEv (payload : String)
  | transferCompleted (now : Int) (fileSizeResult : Except String Int)

/-- Result of applying a sender event: the new state, the paths for
which a `get_file_size` engine query was issued, and the byte counts
passed to the analytics tracker. -/
structure SenderEventResult where
  state : SenderState
  fileSizeQueries : List String
  trackerCalls : List Int
deriving DecidableEq

/-- The sender hook's event handlers, one branch per listener. -/
def applySenderEvent (s : SenderState) : SenderEvent → SenderEventResult
  | .importStarted =>
      ⟨{ s with
          isImporting := true
          importProgress := none }, [], []⟩
  | .importFileCount payload =>
      let ip : ImportProgress :=
        { processed := some 0, total := parseIntJS payload, percentage := some 0 }
      ⟨{ s with importProgress := some ip }, [], []⟩
  | .importProgressEv payload =>
      ⟨{ s with importProgress := importProgressHandler s.importProgress payload },
        [], []⟩
  | .importCompleted =>
      ⟨{ s with isImporting := false }, [], []⟩
  | .transferStarted now =>
      ⟨{ s with
          isTransporting := true
          isCompleted := false
          transferStartTime := some now
          transferProgress := none }, [], []⟩
  | .transferProgressEv payload =>
      ⟨{ s with transferProgress := progressHandler s.transferProgress payload },
        [], []⟩
  | .transferCompleted now r =>
      let s1 : SenderState :=
        { s with
            isTransporting := false
            isCompleted := true
            transferProgress := none }
      match s.selectedPath with
      | none => ⟨s1, [], []⟩
      | some path =>
          let fileName := jsPopOr path "Unknown"
          let fileSize := match r with | .ok n => n | .error _ => 0
          let m : TransferMetadata :=
            { fileName := fileName
              fileSize := fileSize
              duration := durationFrom s.transferStartTime now
              startTime := jsOrInt s.transferStartTime now
              endTime := now
              downloadPath := none }
          ⟨{ s1 with transferMetadata := some m }, [path], []⟩

/-- `stopSharing()` (also the sender's `resetForNewTransfer`): invokes
`stop_sharing`; only a successful invocation resets the local state,
a failed one opens an alert and changes nothing else. -/
def stopSharing (s : SenderState) (r : Except String Unit) : SenderState :=
  match r with
  | .ok _ =>
      { s with
          isSharing := false
          isImporting := false
          isTransporting := false
          isCompleted := false
          ticket := none
          selectedPath := none
          transferMetadata := none
          transferProgress := none
          importProgress := none
          transferStartTime := none }
  | .error e =>
      let a := showAlert "Stop Sharing Failed" ("Failed to stop sharing: " ++ e)
        "error"
      { s with alertDialog := a }

/-- Completion display name, from the `receive-completed` handler:
fallback for an empty list; last segment of a single path; for several
paths, the first segment of the *first* path when it has more than one
segment, else `"{n} files"`. -/
def displayName : List String → String
  | [] => "Downloaded File"
  | [fullPath] => jsPopOr fullPath fullPath
  | first :: q :: rest =>
      if (splitChar '/' first).length > 1 then
        (if (splitChar '/' first).headD "" = "" then
          toString ((first :: q :: rest).length) ++ " files"
        else (splitChar '/' first).headD "")
      else toString ((first :: q :: rest).length) ++ " files"

/-- `transferProgressRef.current?.totalBytes || 0`: `null`, `NaN` and
`0` all collapse to `0`. -/
def lastTotalOrZero (p : Option TransferProgress) : Int :=
  match p with
  | none => 0
  | some tp =>
      match tp.totalBytes with
      | none => 0
      | some v => if v = 0 then 0 else v

/-- Lifecycle events consumed by the receiver hook.  `JSON.parse` of
the file-names payload is modelled by its outcome: `none` when the
parse throws (the handler's catch branch), `some names` otherwise. -/
inductive ReceiverEvent where
  | receiveStarted (now : Int)
  | receiveResumed (payload : String)
  | receiveProgressEv (payload : String)
  | receiveFileNames (parsed : Option (List String))
  | exportStarted (payload : String)
  | exportProgressEv (payload : String)
  | exportCompleted
  | receiveCompleted (now : Int)

/-- Result of applying a receiver event: the new state and the byte
counts passed to `trackDataTransfer`. -/
structure ReceiverEventResult where
  state : ReceiverState
  trackerCalls : List Int
deriving DecidableEq

/-- The receiver hook's event handlers, one branch per listener.  The
`receive-resumed` timer is modelled separately (`runResume`); here the
handler only records the parsed offset. -/
def applyReceiverEvent (s : ReceiverState) : ReceiverEvent → ReceiverEventResult
  | .receiveStarted now =>
      ⟨{ s with
          isTransporting := true
          isCompleted := false
          transferStartTime := some now
          transferProgress := none }, []⟩
  | .receiveResumed payload =>
      ⟨{ s with resumedFrom := some (parseIntJS payload) }, []⟩
  | .receiveProgressEv payload =>
      ⟨{ s with transferProgress := progressHandler s.transferProgress payload },
        []⟩
  | .receiveFileNames parsed =>
      match parsed with
      | some names => ⟨{ s with fileNames := names }, []⟩
      | none => ⟨s, []⟩
  | .exportStarted payload =>
      let ep : ExportProgress :=
        { current := some 0, total := parseIntJS payload, percentage := some 0 }
      ⟨{ s with
          isExporting := true
          exportProgress := some ep }, []⟩
  | .exportProgressEv payload =>
      ⟨{ s with exportProgress := exportProgressHandler s.exportProgress payload },
        []⟩
  | .exportCompleted =>
      ⟨{ s with
          isExporting := false
          exportProgress := none }, []⟩
  | .receiveCompleted now =>
      let s1 : ReceiverState :=
        { s with
            isTransporting := false
            isCompleted := true
            transferProgress := none }
      let size := lastTotalOrZero s.transferProgress
      let m : TransferMetadata :=
        { fileName := displayName s.fileNames
          fileSize := size
          duration := durationFrom s.transferStartTime now
          startTime := jsOrInt s.transferStartTime now
          endTime := now
          downloadPath := some s.savePath }
      ⟨{ s1 with transferMetadata := some m }, [size]⟩

/-- `resetForNewTransfer()` on the receiver: pure local reset, no
engine command; save path and alert slot are untouched. -/
def resetForNewTransfer (s : ReceiverState) : ReceiverState :=
  { s with
      isReceiving := false
      isTransporting := false
      isExporting := false
      isCompleted := false
      ticket := ""
      transferMetadata := none
      transferProgress := none
      exportProgress := none
      resumedFrom := none
      transferStartTime := none
      fileNames := [] }

/-- `handleReceive()`: an all-whitespace ticket is a silent no-op with
no engine contact; otherwise the pre-invoke clearing runs, the
`receive_file` command is issued with the trimmed ticket and the save
path, and a failure opens an alert and drops the phase flags.  Returns
the state together with the list of `(ticket, outputPath)` invocations
issued. -/
def handleReceive (s : ReceiverState) (r : Except String Unit) :
    ReceiverState × List (String × String) :=
  if trimJS s.ticket = "" then (s, [])
  else
    let s1 : ReceiverState :=
      { s with
          isReceiving := true
          isTransporting := false
          isExporting := false
          isCompleted := false
          transferMetadata := none
          transferProgress := none
          exportProgress := none
          resumedFrom := none
          transferStartTime := none }
    match r with
    | .ok _ => (s1, [(trimJS s.ticket, s.savePath)])
    | .error e =>
        let a := showAlert "Receive Failed" ("Failed to receive file: " ++ e)
          "error"
        ({ s1 with
            alertDialog := a
            isReceiving := false
            isTransporting := false
            isExporting := false
            isCompleted := false },
          [(trimJS s.ticket, s.savePath)])

/-- Timed model of the `receive-resumed` indicator: the current clock,
the indicator value, and the fire times of the pending
`setTimeout(() => setResumedFrom(null), 5000)` callbacks.  The handler
schedules a new timer on every event and never cancels an old one. -/
structure ResumeTimedState where
  now : Nat
  resumedFrom : Option (Option Int)
  timers : List Nat
deriving DecidableEq

/-- The initial timed state: clock at `0`, indicator `null`, no
pending timers. -/
def initResume : ResumeTimedState :=
  { now := 0, resumedFrom := none, timers := [] }

/-- Advance the clock to `t`: every pending timer whose fire time has
been reached runs its callback `setResumedFrom(null)`. -/
def fireTimers (s : ResumeTimedState) (t : Nat) : ResumeTimedState :=
  { now := t
    resumedFrom :=
      if s.timers.any (fun ft => decide (ft ≤ t)) then none else s.resumedFrom
    timers := s.timers.filter (fun ft => decide (t < ft)) }

/-- A step of the timed resume model: either the clock advances to an
absolute time, or a `receive-resumed` event fires, which stores the
parsed offset and schedules a clear after the fixed 5000 ms window. -/
inductive RunStep where
  | advance (to_ : Nat)
  | resume (payload : String)

/-- Apply one step of the timed resume model. -/
def stepRun (s : ResumeTimedState) : RunStep → ResumeTimedState
  | .advance t => fireTimers s t
  | .resume p =>
      { s with
          resumedFrom := some (parseIntJS p)
          timers := s.timers ++ [s.now + 5000] }

/-- Run the timed resume model over a list of steps. -/
def runResume (s : ResumeTimedState) (steps : List RunStep) : ResumeTimedState :=
  steps.foldl stepRun s

/-- One analytics observation sent to the GoatCounter sink. -/
structure AnalyticsObservation where
  event : String
  sizeBytes : Int
deriving DecidableEq

/-- `trackDataTransfer(fileSizeBytes)`: emits one observation when the
GoatCounter sink is available, none otherwise; never throws. -/
def trackDataTransfer (goatAvailable : Bool) (fileSizeBytes : Int) :
    List AnalyticsObservation :=
  if goatAvailable then
    [{ event := "data-transferred", sizeBytes := fileSizeBytes }]
  else []

/-- A concrete mid-session sender state, used as the input of the
counterexamples and witnesses below. -/
def senderEx : SenderState :=
  { isSharing := true
    isImporting := false
    isTransporting := true
    isCompleted := false
    ticket := some "T1"
    selectedPath := some "/tmp/video.mp4"
    isLoading := false
    copySuccess := false
    transferMetadata := none
    transferProgress :=
      some { bytesTransferred := some 1000000, totalBytes := some 2000000,
             speedBps := some 500, percentage := some 50 }
    importProgress := none
    transferStartTime := some 100
    alertDialog := initialAlert }

/-- A concrete mid-session receiver state with a retained file-name
list from an earlier session. -/
def receiverEx : ReceiverState :=
  { ticket := " T1 "
    isReceiving := false
    isTransporting := false
    isExporting := false
    isCompleted := true
    savePath := "/home/user/Downloads"
    transferMetadata := none
    transferProgress :=
      some { bytesTransferred := some 1500000, totalBytes := some 2000000,
             speedBps := some 750, percentage := some 75 }
    exportProgress := none
    resumedFrom := none
    transferStartTime := some 100
    fileNames := ["old.txt"]
    alertDialog := initialAlert }

/-- Helper: a payload that does not split into exactly 3 fields parses
to `none`. -/
lemma parseProgressPayload_not3 (payload : String)
    (h : (splitChar ':' payload).length ≠ 3) :
    parseProgressPayload payload = none := by
  unfold parseProgressPayload
  rcases hl : splitChar ':' payload with _ | ⟨a, _ | ⟨b, _ | ⟨c, _ | ⟨d, t⟩⟩⟩⟩ <;>
    simp_all

/-- Helper: the shared progress handler drops payloads that do not
split into exactly 3 fields. -/
lemma progressHandler_not3 (prev : Option TransferProgress) (payload : String)
    (h : (splitChar ':' payload).length ≠ 3) :
    progressHandler prev payload = prev := by
  unfold progressHandler
  rw [parseProgressPayload_not3 payload h]

/-- Helper: the import-progress handler drops payloads that do not
split into exactly 3 fields. -/
lemma importProgressHandler_not3 (prev : Option ImportProgress)
    (payload : String) (h : (splitChar ':' payload).length ≠ 3) :
    importProgressHandler prev payload = prev := by
  unfold importProgressHandler
  rcases hl : splitChar ':' payload with _ | ⟨a, _ | ⟨b, _ | ⟨c, _ | ⟨d, t⟩⟩⟩⟩ <;>
    simp_all

/-- Helper: the export-progress handler drops payloads that do not
split into exactly 3 fields. -/
lemma exportProgressHandler_not3 (prev : Option ExportProgress)
    (payload : String) (h : (splitChar ':' payload).length ≠ 3) :
    exportProgressHandler prev payload = prev := by
  unfold exportProgressHandler
  rcases hl : splitChar ':' payload with _ | ⟨a, _ | ⟨b, _ | ⟨c, _ | ⟨d, t⟩⟩⟩⟩ <;>
    simp_all

/-- Claim C5: in every transfer/receive progress computation, a total
of at most 0 yields percentage 0 (a definite value, never `NaN`); a
positive total yields exactly `bytesTransferred / totalBytes * 100`,
unclamped, so `bytesTransferred > totalBytes` gives a percentage above
100.  The progress handlers store exactly this value. -/
theorem c5_bytesProgress (b t : Int) :
    (t ≤ 0 → bytesProgress (some b) (some t) = some 0) ∧
    (0 < t → bytesProgress (some b) (some t) =
      some ((b : ℚ) / (t : ℚ) * 100)) ∧
    (0 < t → t < b → ∃ q : ℚ, bytesProgress (some b) (some t) = some q ∧
      100 < q) ∧
    (∀ payload p, parseProgressPayload payload = some p →
      p.percentage = bytesProgress p.bytesTransferred p.totalBytes) := by
  refine ⟨fun h => ?_, fun h => ?_, fun h hb => ?_, fun payload p hp => ?_⟩
  · simp [bytesProgress, not_lt.mpr h]
  · simp [bytesProgress, h]
  · refine ⟨(b : ℚ) / (t : ℚ) * 100, by simp [bytesProgress, h], ?_⟩
    have ht : (0 : ℚ) < (t : ℚ) := by exact_mod_cast h
    have hdiv : (1 : ℚ) < (b : ℚ) / (t : ℚ) :=
      (one_lt_div ht).mpr (by exact_mod_cast hb)
    calc (100 : ℚ) = 1 * 100 := by norm_num
    _ < (b : ℚ) / (t : ℚ) * 100 := by
        exact (mul_lt_mul_right (by norm_num)).mpr hdiv
  · unfold parseProgressPayload at hp
    rcases hl : splitChar ':' payload with _ | ⟨a, _ | ⟨x, _ | ⟨c, _ | ⟨d, t'⟩⟩⟩⟩ <;>
      rw [hl] at hp
    all_goals
      first
        | exact Option.noConfusion hp
        | (injection hp with hp2
           subst hp2
           rfl)

/-- Claim C5, witness: a concrete over-100 percentage and a concrete
zero-total case. -/
theorem c5_bytesProgress_witness :
    bytesProgress (some 3) (some 2) = some 150 ∧
    bytesProgress (some 5) (some 0) = some 0 := by
  constructor
  · have h := (c5_bytesProgress 3 2).2.1 (by norm_num)
    rw [h]; norm_num
  · exact (c5_bytesProgress 5 0).1 (by norm_num)

/-- Claim C6: a transfer-progress or receive-progress payload that
does not split on `':'` into exactly 3 fields causes no state
mutation: the whole hook state, in particular the previous
TransferProgress value, is left unchanged. -/
theorem c6_malformed_progress_dropped (ss : SenderState) (rs : ReceiverState)
    (payload : String) (h : (splitChar ':' payload).length ≠ 3) :
    applySenderEvent ss (.transferProgressEv payload) = ⟨ss, [], []⟩ ∧
    applyReceiverEvent rs (.receiveProgressEv payload) = ⟨rs, []⟩ := by
  have hs := progressHandler_not3 ss.transferProgress payload h
  have hr := progressHandler_not3 rs.transferProgress payload h
  constructor
  · simp only [applySenderEvent, hs]
  · simp only [applyReceiverEvent, hr]

/-- Claim C6, witness: the malformed payload `"12:34"` leaves the
concrete mid-transfer states unchanged. -/
theorem c6_malformed_progress_dropped_witness :
    applySenderEvent senderEx (.transferProgressEv "12:34") =
      ⟨senderEx, [], []⟩ ∧
    applyReceiverEvent receiverEx (.receiveProgressEv "12:34") =
      ⟨receiverEx, []⟩ :=
  c6_malformed_progress_dropped senderEx receiverEx "12:34" (by decide)

/-- Claim C10: a transfer-completed event on the sender with no
selected path still completes the session and clears the progress
snapshot, but produces no metadata (the previous value is kept) and
issues no file-size query to the engine. -/
theorem c10_complete_without_path (ss : SenderState) (now : Int)
    (r : Except String Int) (h : ss.selectedPath = none) :
    applySenderEvent ss (.transferCompleted now r) =
      ⟨{ ss with
          isTransporting := false
          isCompleted := true
          transferProgress := none }, [], []⟩ ∧
    (applySenderEvent ss (.transferCompleted now r)).state.transferMetadata =
      ss.transferMetadata := by
  have h1 : applySenderEvent ss (.transferCompleted now r) =
      ⟨{ ss with
          isTransporting := false
          isCompleted := true
          transferProgress := none }, [], []⟩ := by
    simp only [applySenderEvent, h]
  exact ⟨h1, by rw [h1]⟩

/-- Claim C10, witness: a concrete completion with no selected path
keeps the old metadata and issues no query. -/
theorem c10_complete_without_path_witness :
    applySenderEvent
        { senderEx with selectedPath := none }
        (.transferCompleted 999 (Except.ok 5)) =
      ⟨{ { senderEx with selectedPath := none } with
          isTransporting := false
          isCompleted := true
          transferProgress := none }, [], []⟩ :=
  (c10_complete_without_path { senderEx with selectedPath := none } 999
    (Except.ok 5) rfl).1

/-- Claim C1, counterexample: when the `stop_sharing` command fails,
the sender's `stopSharing` does *not* return the fields to their
initial values — the ticket, progress snapshot and start time survive
and only an alert is opened.  This refutes "it does so regardless of
whether the underlying engine command succeeds or fails". -/
theorem c1_counterexample :
    (stopSharing senderEx (Except.error "boom")).ticket = some "T1" ∧
    (stopSharing senderEx (Except.error "boom")).transferProgress ≠ none ∧
    (stopSharing senderEx (Except.error "boom")).selectedPath ≠ none := by
  decide

/-- Claim C1, amended: the receiver's `resetForNewTransfer` is
unconditional (it performs no engine command) and returns progress,
metadata, ticket and file-name fields to their initial values; the
sender's `stopSharing` does the same only when the `stop_sharing`
command succeeds — on failure it opens an alert and leaves every other
field unchanged. -/
theorem c1_reset_effects (ss : SenderState) (rs : ReceiverState) (e : String) :
    (resetForNewTransfer rs).ticket = "" ∧
    (resetForNewTransfer rs).transferMetadata = none ∧
    (resetForNewTransfer rs).transferProgress = none ∧
    (resetForNewTransfer rs).exportProgress = none ∧
    (resetForNewTransfer rs).resumedFrom = none ∧
    (resetForNewTransfer rs).transferStartTime = none ∧
    (resetForNewTransfer rs).fileNames = [] ∧
    (resetForNewTransfer rs).isReceiving = false ∧
    (resetForNewTransfer rs).isTransporting = false ∧
    (resetForNewTransfer rs).isExporting = false ∧
    (resetForNewTransfer rs).isCompleted = false ∧
    (resetForNewTransfer rs).alertDialog = rs.alertDialog ∧
    (resetForNewTransfer rs).savePath = rs.savePath ∧
    (stopSharing ss (Except.ok ())).ticket = none ∧
    (stopSharing ss (Except.ok ())).selectedPath = none ∧
    (stopSharing ss (Except.ok ())).transferMetadata = none ∧
    (stopSharing ss (Except.ok ())).transferProgress = none ∧
    (stopSharing ss (Except.ok ())).importProgress = none ∧
    (stopSharing ss (Except.ok ())).transferStartTime = none ∧
    (stopSharing ss (Except.ok ())).isSharing = false ∧
    (stopSharing ss (Except.ok ())).isImporting = false ∧
    (stopSharing ss (Except.ok ())).isTransporting = false ∧
    (stopSharing ss (Except.ok ())).isCompleted = false ∧
    (stopSharing ss (Except.ok ())).alertDialog = ss.alertDialog ∧
    stopSharing ss (Except.error e) =
      { ss with
          alertDialog :=
            showAlert "Stop Sharing Failed"
              ("Failed to stop sharing: " ++ e) "error" } := by
  refine ⟨rfl, rfl, rfl, rfl, rfl, rfl, rfl, rfl, rfl, rfl, rfl, rfl, rfl,
    rfl, rfl, rfl, rfl, rfl, rfl, rfl, rfl, rfl, rfl, rfl, rfl⟩

/-- Claim C2, counterexample: two paths with *different* first
segments yield the first path's first segment, not `"2 files"`: the
handler never checks that the paths share a common first segment. -/
theorem c2_counterexample :
    displayName ["a/x.txt", "b/y.txt"] = "a" ∧
    displayName ["a/x.txt", "b/y.txt"] ≠ "2 files" := by
  decide

/-- Claim C2, amended: empty list yields the fallback label
"Downloaded File"; a single path yields its last segment (falling back
to the whole path when that segment is empty); for two or more paths,
if the *first* path splits on `'/'` into more than one segment, its
first segment is used (regardless of the other paths), and otherwise
the result is `"{n} files"`. -/
theorem c2_displayName :
    displayName [] = "Downloaded File" ∧
    (∀ p seg, (splitChar '/' p).getLast? = some seg → seg ≠ "" →
      displayName [p] = seg) ∧
    (∀ first rest, rest ≠ [] → 1 < (splitChar '/' first).length →
      (splitChar '/' first).headD "" ≠ "" →
      displayName (first :: rest) = (splitChar '/' first).headD "") ∧
    (∀ first rest, rest ≠ [] → (splitChar '/' first).length ≤ 1 →
      displayName (first :: rest) =
        toString (rest.length + 1) ++ " files") := by
  refine ⟨rfl, fun p seg hseg hne => ?_, fun first rest hr h1 hhd => ?_,
    fun first rest hr h1 => ?_⟩
  · simp only [displayName]
    unfold jsPopOr
    rw [hseg]
    simp [hne]
  · rcases rest with _ | ⟨q, rest'⟩
    · exact absurd rfl hr
    · have hgt : (splitChar '/' first).length > 1 := h1
      simp only [displayName]
      rw [if_pos hgt, if_neg hhd]
  · rcases rest with _ | ⟨q, rest'⟩
    · exact absurd rfl hr
    · have hle : ¬ ((splitChar '/' first).length > 1) := by omega
      simp only [displayName]
      rw [if_neg hle]
      simp only [List.length_cons]

/-- Claim C2, witness: concrete evaluations through the amended
characterisation. -/
theorem c2_displayName_witness :
    displayName ["a/b/file.txt"] = "file.txt" ∧
    displayName ["shared/x.txt", "shared/y.txt"] = "shared" ∧
    displayName ["x.txt", "y.txt"] = "2 files" := by
  refine ⟨?_, ?_, ?_⟩
  · have h := c2_displayName.2.1 "a/b/file.txt" "file.txt" (by decide)
      (by decide)
    exact h
  · have h := c2_displayName.2.2.1 "shared/x.txt" ["shared/y.txt"]
      (by decide) (by decide) (by decide)
    rw [h]
    decide
  · have h := c2_displayName.2.2.2 "x.txt" ["y.txt"] (by decide) (by decide)
    rw [h]
    decide

/-- Claim C4, counterexample: the sender's transfer-completed handler
makes no analytics call at all — zero observations, not one — even on
a fully successful completed session. -/
theorem c4_counterexample :
    (applySenderEvent senderEx
      (.transferCompleted 5100 (Except.ok 2000000))).trackerCalls = [] := by
  decide

/-- Claim C4, amended: only the receiver emits analytics: its
receive-completed handler calls the tracker exactly once, with the
final byte count used in the metadata; the tracker forwards one
observation when the sink is available and swallows everything
otherwise; the sender's handlers never call the tracker for any
event. -/
theorem c4_analytics (rs : ReceiverState) (now : Int) (ss : SenderState)
    (ev : SenderEvent) (size : Int) :
    (applyReceiverEvent rs (.receiveCompleted now)).trackerCalls =
      [lastTotalOrZero rs.transferProgress] ∧
    (applySenderEvent ss ev).trackerCalls = [] ∧
    trackDataTransfer true size =
      [{ event := "data-transferred", sizeBytes := size }] ∧
    trackDataTransfer false size = [] := by
  refine ⟨rfl, ?_, rfl, rfl⟩
  cases ev with
  | transferCompleted now' r =>
      simp only [applySenderEvent]
      rcases ss.selectedPath with _ | path <;> rfl
  | _ => rfl

/-- Claim C7, counterexample: the non-numeric payload `"abc"` for
`import-file-count` is *not* dropped — the handler writes
`{processed: 0, total: NaN, percentage: 0}` into the import counters,
mutating state.  The same happens for `export-started`, which also
flips the exporting flag. -/
theorem c7_counterexample :
    (applySenderEvent senderEx (.importFileCount "abc")).state.importProgress =
      some { processed := some 0, total := none, percentage := some 0 } ∧
    senderEx.importProgress = none ∧
    (applyReceiverEvent receiverEx
      (.exportStarted "abc")).state.exportProgress =
      some { current := some 0, total := none, percentage := some 0 } ∧
    receiverEx.exportProgress = none := by
  decide

/-- Claim C7, amended: handlers that guard on structure do drop
malformed payloads with no mutation — a progress payload that does not
split into 3 fields leaves the whole state unchanged, and a file-names
payload whose JSON parse throws is caught and dropped — but the
integer-string handlers (`import-file-count`, `export-started`) parse
with `parseInt` and store the result unconditionally, so non-numeric
text mutates state by writing a `NaN` total; no event handler ever
touches the alert slot. -/
theorem c7_parse_failures (ss : SenderState) (rs : ReceiverState)
    (payload : String) (ev : SenderEvent) (ev' : ReceiverEvent) :
    ((splitChar ':' payload).length ≠ 3 →
      applySenderEvent ss (.importProgressEv payload) = ⟨ss, [], []⟩) ∧
    ((splitChar ':' payload).length ≠ 3 →
      applyReceiverEvent rs (.exportProgressEv payload) = ⟨rs, []⟩) ∧
    applyReceiverEvent rs (.receiveFileNames none) = ⟨rs, []⟩ ∧
    (applySenderEvent ss (.importFileCount payload)).state.importProgress =
      some { processed := some 0, total := parseIntJS payload,
             percentage := some 0 } ∧
    (applyReceiverEvent rs (.exportStarted payload)).state.exportProgress =
      some { current := some 0, total := parseIntJS payload,
             percentage := some 0 } ∧
    (applyReceiverEvent rs (.exportStarted payload)).state.isExporting =
      true ∧
    (applySenderEvent ss ev).state.alertDialog = ss.alertDialog ∧
    (applyReceiverEvent rs ev').state.alertDialog = rs.alertDialog := by
  refine ⟨fun h => ?_, fun h => ?_, rfl, rfl, rfl, rfl, ?_, ?_⟩
  · have hi := importProgressHandler_not3 ss.importProgress payload h
    simp only [applySenderEvent, hi]
  · have he := exportProgressHandler_not3 rs.exportProgress payload h
    simp only [applyReceiverEvent, he]
  · cases ev with
    | transferCompleted now' r =>
        simp only [applySenderEvent]
        rcases ss.selectedPath with _ | path <;> rfl
    | _ => rfl
  · cases ev' with
    | receiveFileNames parsed => rcases parsed with _ | names <;> rfl
    | _ => rfl

/-- Claim C7, witness: the 3-field guards at the malformed payload
`"12:34"` on the concrete states. -/
theorem c7_parse_failures_witness :
    applySenderEvent senderEx (.importProgressEv "12:34") =
      ⟨senderEx, [], []⟩ ∧
    applyReceiverEvent receiverEx (.exportProgressEv "12:34") =
      ⟨receiverEx, []⟩ := by
  have h := c7_parse_failures senderEx receiverEx "12:34"
    SenderEvent.importStarted ReceiverEvent.exportCompleted
  exact ⟨h.1 (by decide), h.2.1 (by decide)⟩

/-- Claim C8, counterexample: when the `receive_file` invocation
fails, `handleReceive` does *not* fully reset the session — the
entered ticket and the retained file-name list survive, although a
full reset (`resetForNewTransfer`) would clear both. -/
theorem c8_counterexample :
    (handleReceive receiverEx (Except.error "boom")).1.ticket = " T1 " ∧
    (handleReceive receiverEx (Except.error "boom")).1.fileNames =
      ["old.txt"] ∧
    (resetForNewTransfer
      (handleReceive receiverEx (Except.error "boom")).1).ticket = "" ∧
    (resetForNewTransfer
      (handleReceive receiverEx (Except.error "boom")).1).fileNames = [] := by
  decide

/-- Claim C8, amended: a ticket that is empty after trimming makes
`handleReceive` a silent no-op with no engine invocation; a non-empty
ticket issues exactly one `receive_file` invocation with the trimmed
ticket and the configured destination; on failure an alert opens and
the phase flags return to idle with metadata, progress, export,
resume and start-time fields cleared (they were cleared before the
invocation), while the entered ticket and the retained file names are
kept; on success the session is not completed by the invocation
itself. -/
theorem c8_handleReceive (s : ReceiverState) (r : Except String Unit) :
    (trimJS s.ticket = "" → handleReceive s r = (s, [])) ∧
    (trimJS s.ticket ≠ "" →
      (handleReceive s r).2 = [(trimJS s.ticket, s.savePath)]) ∧
    (∀ e, trimJS s.ticket ≠ "" → r = Except.error e →
      (handleReceive s r).1.alertDialog =
        showAlert "Receive Failed" ("Failed to receive file: " ++ e)
          "error" ∧
      (handleReceive s r).1.isReceiving = false ∧
      (handleReceive s r).1.isTransporting = false ∧
      (handleReceive s r).1.isExporting = false ∧
      (handleReceive s r).1.isCompleted = false ∧
      (handleReceive s r).1.transferMetadata = none ∧
      (handleReceive s r).1.transferProgress = none ∧
      (handleReceive s r).1.exportProgress = none ∧
      (handleReceive s r).1.resumedFrom = none ∧
      (handleReceive s r).1.transferStartTime = none ∧
      (handleReceive s r).1.ticket = s.ticket ∧
      (handleReceive s r).1.fileNames = s.fileNames) ∧
    (trimJS s.ticket ≠ "" → r = Except.ok () →
      (handleReceive s r).1.isCompleted = false ∧
      (handleReceive s r).1.isReceiving = true) := by
  refine ⟨fun h => ?_, fun h => ?_, fun e h hr => ?_, fun h hr => ?_⟩
  · simp only [handleReceive, if_pos h]
  · rcases r with e | u <;> simp only [handleReceive, if_neg h]
  · subst hr
    simp [handleReceive, if_neg h]
  · subst hr
    simp [handleReceive, if_neg h]

/-- Claim C8, witness: the amended behaviour at the concrete receiver
state (whose ticket trims to "T1") and a failing invocation. -/
theorem c8_handleReceive_witness :
    (handleReceive receiverEx (Except.error "boom")).2 =
      [("T1", "/home/user/Downloads")] ∧
    (handleReceive receiverEx (Except.error "boom")).1.transferMetadata =
      none ∧
    (handleReceive receiverEx (Except.error "boom")).1.isReceiving = false := by
  have h := c8_handleReceive receiverEx (Except.error "boom")
  have h2 := h.2.1 (by decide)
  have h3 := h.2.2.1 "boom" (by decide) rfl
  exact ⟨by rw [h2]; decide, h3.2.2.2.2.2.1, h3.2.1⟩

/-- A receiver state in which no progress event and no file-names
event ever arrived. -/
def receiverEmptyEx : ReceiverState :=
  { ticket := "T1"
    isReceiving := true
    isTransporting := true
    isExporting := false
    isCompleted := false
    savePath := "/home/user/Downloads"
    transferMetadata := none
    transferProgress := none
    exportProgress := none
    resumedFrom := none
    transferStartTime := some 100
    fileNames := []
    alertDialog := initialAlert }

/-- Claim C9: `receive-completed` moves the session to Completed,
clears the TransferProgress snapshot, and builds metadata whose
fileSize is the last known total byte count (0 when no progress event
ever arrived), whose downloadPath is the currently configured save
path, and whose fileName is the fallback label when no file-names
event was ever delivered. -/
theorem c9_receiveCompleted (rs : ReceiverState) (now : Int) :
    (applyReceiverEvent rs (.receiveCompleted now)).state.isCompleted = true ∧
    (applyReceiverEvent rs (.receiveCompleted now)).state.isTransporting =
      false ∧
    (applyReceiverEvent rs (.receiveCompleted now)).state.transferProgress =
      none ∧
    (applyReceiverEvent rs
        (.receiveCompleted now)).state.transferMetadata.map
      TransferMetadata.downloadPath = some (some rs.savePath) ∧
    (rs.transferProgress = none →
      (applyReceiverEvent rs
          (.receiveCompleted now)).state.transferMetadata.map
        TransferMetadata.fileSize = some 0) ∧
    (∀ p v, rs.transferProgress = some p → p.totalBytes = some v →
      (applyReceiverEvent rs
          (.receiveCompleted now)).state.transferMetadata.map
        TransferMetadata.fileSize = some v) ∧
    (rs.fileNames = [] →
      (applyReceiverEvent rs
          (.receiveCompleted now)).state.transferMetadata.map
        TransferMetadata.fileName = some "Downloaded File") := by
  refine ⟨rfl, rfl, rfl, rfl, fun hnone => ?_, fun p v hp hv => ?_,
    fun hf => ?_⟩
  · simp [applyReceiverEvent, lastTotalOrZero, hnone]
  · rcases eq_or_ne v 0 with h0 | h0
    · subst h0
      simp [applyReceiverEvent, lastTotalOrZero, hp, hv]
    · simp [applyReceiverEvent, lastTotalOrZero, hp, hv, h0]
  · simp [applyReceiverEvent, hf, displayName]

/-- Claim C9, witness: completion with no progress and no file names
yields fileSize 0, the fallback name, and the configured save path. -/
theorem c9_receiveCompleted_witness :
    (applyReceiverEvent receiverEmptyEx
        (.receiveCompleted 500)).state.transferMetadata.map
      TransferMetadata.fileSize = some 0 ∧
    (applyReceiverEvent receiverEmptyEx
        (.receiveCompleted 500)).state.transferMetadata.map
      TransferMetadata.fileName = some "Downloaded File" ∧
    (applyReceiverEvent receiverEmptyEx
        (.receiveCompleted 500)).state.isCompleted = true := by
  have h := c9_receiveCompleted receiverEmptyEx 500
  exact ⟨h.2.2.2.2.1 rfl, h.2.2.2.2.2.2 rfl, h.1⟩

/-- Claim C3, counterexample: resume events at t=0 ms and t=3000 ms;
the claim says the indicator set by the second event stays visible
until t=8000 ms, but the first event's timer is never cancelled and
fires at t=5000 ms, so at t=7999 ms the indicator is already gone. -/
theorem c3_counterexample :
    (runResume initResume
      [RunStep.resume "1", RunStep.advance 3000, RunStep.resume "2",
       RunStep.advance 7999]).resumedFrom = none := by
  decide

/-- Claim C3, amended: a single resume event at `t0` sets the
indicator and it is still visible at `t0+4999` and gone at `t0+5001`;
but a second resume event at `t1` inside the first window does *not*
restart the window: the indicator it sets is visible only while the
clock is short of `t0+5000`, and any time at or past `t0+5000` finds
it cleared by the first event's un-cancelled timer. -/
theorem c3_resume_window (t0 t1 T : Nat) (p1 p2 : String)
    (h0 : t0 ≤ t1) (h1 : t1 < t0 + 5000) :
    ((runResume initResume
        [RunStep.advance t0, RunStep.resume p1,
         RunStep.advance (t0 + 4999)]).resumedFrom = some (parseIntJS p1)) ∧
    ((runResume initResume
        [RunStep.advance t0, RunStep.resume p1,
         RunStep.advance (t0 + 5001)]).resumedFrom = none) ∧
    (t1 ≤ T → T < t0 + 5000 →
      (runResume initResume
        [RunStep.advance t0, RunStep.resume p1, RunStep.advance t1,
         RunStep.resume p2, RunStep.advance T]).resumedFrom =
        some (parseIntJS p2)) ∧
    (t0 + 5000 ≤ T →
      (runResume initResume
        [RunStep.advance t0, RunStep.resume p1, RunStep.advance t1,
         RunStep.resume p2, RunStep.advance T]).resumedFrom = none) := by
  have e1 : ¬ (t0 + 5000 ≤ t0 + 4999) := by omega
  have e2 : t0 + 5000 ≤ t0 + 5001 := by omega
  have e3 : ¬ (t0 + 5000 ≤ t1) := by omega
  have e4 : t1 < t0 + 5000 := h1
  refine ⟨?_, ?_, fun hT1 hT2 => ?_, fun hT => ?_⟩
  · simp [runResume, stepRun, fireTimers, initResume, e1]
  · simp [runResume, stepRun, fireTimers, initResume, e2]
  · have e5 : ¬ (t0 + 5000 ≤ T) := by omega
    have e6 : ¬ (t1 + 5000 ≤ T) := by omega
    simp [runResume, stepRun, fireTimers, initResume, e3, e4, e5, e6]
  · simp [runResume, stepRun, fireTimers, initResume, e3, e4, hT]

/-- Claim C3, witness: the single-event window at `t0 = 0` with the
payload "500000". -/
theorem c3_resume_window_witness :
    (runResume initResume
      [RunStep.advance 0, RunStep.resume "500000",
       RunStep.advance 4999]).resumedFrom = some (some 500000) ∧
    (runResume initResume
      [RunStep.advance 0, RunStep.resume "500000",
       RunStep.advance 5001]).resumedFrom = none := by
  have h := c3_resume_window 0 3000 4000 "500000" "2" (by decide) (by decide)
  refine ⟨?_, h.2.1⟩
  rw [h.1]
  decide

end AltSendme
